import Mathlib

/-!
Verification of the drop server (server.js) and its client-side file filter
(Homepage.js): a shallow embedding of the image-sequence login gate, the
attempt throttle, the in-memory session store, the token-checking middleware,
and the file upload/download/list surface, together with proofs of the
specified properties.
-/

namespace Drop

/-- A JavaScript value, as far as the login handler can observe one: the
`imageSequence` field of a JSON request body is a number, a string, a
boolean, `null`, or an array of further values. -/
inductive JsVal where
  | jnum (n : Int)
  | jstr (s : String)
  | jbool (b : Bool)
  | jnull
  | jarr (elems : List JsVal)

/-- JavaScript truthiness of a `JsVal` (`!v` is the negation of this).
`0`, the empty string, `false` and `null` are falsy; every array is truthy. -/
def truthy : JsVal → Bool
  | .jnum n => n != 0
  | .jstr s => s != ""
  | .jbool b => b
  | .jnull => false
  | .jarr _ => true

/-- `Array.isArray(v)`. -/
def isArray : JsVal → Bool
  | .jarr _ => true
  | _ => false

/-- JavaScript strict equality `v === e` between a `JsVal` and a number:
true only when `v` is that number. -/
def jsStrictEqNum : JsVal → Int → Bool
  | .jnum n, e => n == e
  | _, _ => false

mutual
/-- Element rendering used by `Array.prototype.join`: numbers via their
decimal string, `null` as the empty string, nested arrays via a
comma-separated join. -/
def joinElemStr : JsVal → String
  | .jnum n => toString n
  | .jstr s => s
  | .jbool b => cond b "true" "false"
  | .jnull => ""
  | .jarr xs => joinListStr xs
/-- `xs.join(',')` for a nested array rendered by `joinElemStr`. -/
def joinListStr : List JsVal → String
  | [] => ""
  | [v] => joinElemStr v
  | v :: w :: vs => joinElemStr v ++ "," ++ joinListStr (w :: vs)
end

/-- `CORRECT_IMAGE_SEQUENCE = [2, 6, 4, 8]` from server.js. -/
def CORRECT_IMAGE_SEQUENCE : List Int := [2, 6, 4, 8]

/-- The environment-configurable ceilings (`parseInt(process.env...) || 5`). -/
structure Config where
  maxImageLoginAttempts : Nat
deriving DecidableEq, Repr

/-- The default configuration: `MAX_IMAGE_LOGIN_ATTEMPTS` defaults to 5. -/
def defaultConfig : Config := { maxImageLoginAttempts := 5 }

/-- The server's mutable state: `imageLoginAttempts` (a JS object read with
default 0 — the handler initialises a missing or zero entry to 0, a no-op
under this reading) and `authenticatedUsers` (a `Set` of token strings,
modelled as a duplicate-free-on-insert list). -/
structure ServerState where
  attempts : String → Nat
  sessions : List String

/-- The state of a freshly started server process: no recorded attempts,
empty `authenticatedUsers` set. -/
def initialState : ServerState :=
  { attempts := fun _ => 0, sessions := [] }

/-- `imageSequence.length === CORRECT.length && imageSequence.every((value,
index) => value === CORRECT[index])`: `every` visits each element of the
submitted array with its index; reading the expected sequence out of range
yields `undefined`, and `value === undefined` is false for every element. -/
def isCorrectSeq (seq : List JsVal) (secret : List Int) : Bool :=
  (seq.length == secret.length) &&
    seq.enum.all fun p =>
      match secret[p.1]? with
      | some e => jsStrictEqNum p.2 e
      | none => false

/-- The deterministic token: `` `user_${imageSequence.join('_')}` ``. -/
def tokenFor (seq : List JsVal) : String :=
  "user_" ++ String.intercalate "_" (seq.map joinElemStr)

/-- `authenticatedUsers.add(token)`: set insertion. -/
def issue (sessions : List String) (token : String) : List String :=
  if token ∈ sessions then sessions else token :: sessions

/-- The session store's lookup: `authenticatedUsers.has(token)` resolves the
identity attached to the request, which is the token itself
(`req.user = { id: token }`). -/
def validate (sessions : List String) (token : String) : Option String :=
  if token ∈ sessions then some token else none

/-- Modelled from the spec: the Session Store interface lists
`revoke(token)` (explicit logout), but no logout endpoint or
`authenticatedUsers.delete` call exists under src/; per the spec's words it
removes the token from the set. -/
def revoke (sessions : List String) (token : String) : List String :=
  sessions.filter fun t => t != token

/-- Outcome of `POST /login`, tagged by the branch taken in the handler. -/
inductive LoginResult where
  | tooManyAttempts
  | invalidBody
  | incorrectSequence
  | success (token : String)
deriving DecidableEq, Repr

/-- The HTTP status code each login outcome is sent with: 429 for the
throttle branch, 400 for a missing or non-array body, 401 for an incorrect
sequence, 200 on success. -/
def statusCode : LoginResult → Nat
  | .tooManyAttempts => 429
  | .invalidBody => 400
  | .incorrectSequence => 401
  | .success _ => 200

/-- The `POST /login` handler. `clientKey` is `req.ip`; `imageSequence` is
the `imageSequence` field of the body (`none` when the field is absent).
Branch order follows the source: throttle check first, then the
`!imageSequence || !Array.isArray(imageSequence)` body check, then the
sequence comparison; success resets the caller's counter to 0 and records
the deterministic token, failure increments the counter. -/
def login (cfg : Config) (st : ServerState) (clientKey : String)
    (imageSequence : Option JsVal) : LoginResult × ServerState :=
  if cfg.maxImageLoginAttempts ≤ st.attempts clientKey then
    (.tooManyAttempts, st)
  else
    match imageSequence with
    | none => (.invalidBody, st)
    | some v =>
      if !truthy v || !isArray v then (.invalidBody, st)
      else
        match v with
        | .jarr seq =>
          if isCorrectSeq seq CORRECT_IMAGE_SEQUENCE then
            (.success (tokenFor seq),
              { attempts := fun k => if k = clientKey then 0 else st.attempts k,
                sessions := issue st.sessions (tokenFor seq) })
          else
            (.incorrectSequence,
              { st with
                attempts := fun k =>
                  if k = clientKey then st.attempts k + 1 else st.attempts k })
        | _ => (.invalidBody, st)

/-- Outcome of the `authenticateToken` middleware: 401 when no token is
supplied, 403 when the token is not in the session store, otherwise the
request proceeds with `req.user = { id: token }`. -/
inductive AuthResult where
  | missingToken
  | invalidToken
  | ok (userId : String)
deriving DecidableEq, Repr

/-- `authenticateToken`: `const token = req.headers['authorization'] ||
req.query.token;` — the header is read first and, being a string, falls
through to the query parameter exactly when it is absent or empty (falsy);
then `if (!token)` rejects a missing or empty token with 401, and a token
not in `authenticatedUsers` is rejected with 403. -/
def authenticateToken (sessions : List String)
    (authHeader queryToken : Option String) : AuthResult :=
  let token : Option String :=
    match authHeader with
    | some h => if h = "" then queryToken else some h
    | none => queryToken
  match token with
  | none => .missingToken
  | some t =>
    if t = "" then .missingToken
    else if t ∈ sessions then .ok t
    else .invalidToken

/-- The protected routes of server.js. -/
inductive Route where
  | upload
  | files
  | download
  | images
  | notes
  | passwords
  | adminCheckPassword
deriving DecidableEq, Repr

/-- Every protected route installs the same `authenticateToken` middleware;
the gate a route applies does not depend on the route. -/
def routeGate (_r : Route) (sessions : List String)
    (authHeader queryToken : Option String) : AuthResult :=
  authenticateToken sessions authHeader queryToken

/-- The shared upload directory, keyed by filename. -/
def FileStore := List (String × List Nat)

/-- Multer's `diskStorage` with `filename: cb(null, file.originalname)`:
writing to the destination path silently replaces any existing file of the
same name. -/
def uploadFile (dir : FileStore) (name : String) (content : List Nat) :
    FileStore :=
  (name, content) :: dir.filter fun p => p.1 != name

/-- `GET /download/:filename`: `fs.access` then `res.download` — the stored
bytes when the file exists, `none` (a 404) otherwise. -/
def downloadFile (dir : FileStore) (name : String) : Option (List Nat) :=
  match dir.find? (fun p => p.1 == name) with
  | some p => some p.2
  | none => none

/-- A directory entry as `fs.readdir` + `fs.statSync` see it. -/
structure DirEntry where
  name : String
  isFile : Bool
deriving DecidableEq, Repr

/-- `GET /files`: `files.filter(name => statSync(...).isFile())` — the names
of the regular files, directories excluded. -/
def listFiles (entries : List DirEntry) : List String :=
  (entries.filter fun e => e.isFile).map fun e => e.name

/-- `imageExtensions` from Homepage.js. -/
def imageExtensions : List String :=
  [".jpg", ".jpeg", ".png", ".gif", ".svg", ".webp"]

/-- Index of the last `'.'` in a character list (`file.lastIndexOf('.')`),
or `none` when there is no dot (JS returns -1). -/
def lastDotIndex : List Char → Option Nat
  | [] => none
  | c :: cs =>
    match lastDotIndex cs with
    | some i => some (i + 1)
    | none => if c = '.' then some 0 else none

/-- `file.substring(file.lastIndexOf('.')).toLowerCase()`: the suffix from
the last dot, lower-cased; with no dot, `substring(-1)` clamps to 0 and the
whole name is taken. -/
def extensionOf (file : String) : String :=
  match lastDotIndex file.data with
  | some i => String.mk ((file.data.drop i).map Char.toLower)
  | none => String.mk (file.data.map Char.toLower)

/-- The client's per-file predicate: files whose extension is in
`imageExtensions` when the column's `fileTypeFilter` is `'image'`, the
complement otherwise. -/
def fileTypeMatches (fileTypeFilter : String) (file : String) : Bool :=
  let isImage := imageExtensions.contains (extensionOf file)
  if fileTypeFilter = "image" then isImage else !isImage

/-- `fetchAndFilterFiles`'s filter over the names returned by `GET /files`. -/
def filteredFiles (fileTypeFilter : String) (files : List String) :
    List String :=
  files.filter (fileTypeMatches fileTypeFilter)

/-- The correct sequence as the JSON array value a client submits. -/
def correctJsSeq : List JsVal := [.jnum 2, .jnum 6, .jnum 4, .jnum 8]

/-- The wrong sequence `[1, 2, 3, 4]` of the spec's example scenario. -/
def wrongJsSeq : List JsVal := [.jnum 1, .jnum 2, .jnum 3, .jnum 4]

/-- The server state after `n` login calls from origin `203.0.113.7`, each
submitting the wrong sequence `[1, 2, 3, 4]`, starting from a fresh
process. -/
def afterFailures : Nat → ServerState
  | 0 => initialState
  | n + 1 =>
    (login defaultConfig (afterFailures n) "203.0.113.7"
      (some (.jarr wrongJsSeq))).2

/-- A state whose attempt counter sits at the default ceiling for every
origin. -/
def throttledState : ServerState :=
  { attempts := fun _ => 5, sessions := [] }

/-- A running state unrelated to the fresh one: some failed attempts
recorded and another session already present. -/
def altState : ServerState :=
  { attempts := fun _ => 3, sessions := ["user_9"] }

/-! ### Helper lemmas -/

/-- Structural comparator equivalent to the indexed `every` of the handler:
true when each submitted element strictly equals the expected element at its
position, and the expected list does not run out first. -/
def pointwiseEq : List JsVal → List Int → Bool
  | [], _ => true
  | _ :: _, [] => false
  | v :: vs, e :: es => jsStrictEqNum v e && pointwiseEq vs es

theorem jsStrictEqNum_iff (v : JsVal) (e : Int) :
    jsStrictEqNum v e = true ↔ v = .jnum e := by
  cases v <;> simp [jsStrictEqNum]

theorem enumFrom_all_eq_pointwise (seq : List JsVal) (secret : List Int)
    (n : Nat) :
    ((List.enumFrom n seq).all fun p =>
        match secret[p.1]? with
        | some e => jsStrictEqNum p.2 e
        | none => false) = pointwiseEq seq (secret.drop n) := by
  induction seq generalizing n with
  | nil => simp [pointwiseEq]
  | cons v vs ih =>
    have hcons : List.enumFrom n (v :: vs) =
        (n, v) :: List.enumFrom (n + 1) vs := rfl
    rw [hcons, List.all_cons, ih]
    by_cases hlt : n < secret.length
    · rw [List.drop_eq_getElem_cons hlt, pointwiseEq,
        List.getElem?_eq_getElem hlt]
    · have hle : secret.length ≤ n := Nat.le_of_not_lt hlt
      rw [List.getElem?_eq_none hle, List.drop_eq_nil_of_le hle, pointwiseEq]
      simp

theorem pointwise_length_iff (seq : List JsVal) (secret : List Int) :
    (((seq.length == secret.length) && pointwiseEq seq secret) = true) ↔
      seq = secret.map JsVal.jnum := by
  induction seq generalizing secret with
  | nil => cases secret <;> simp [pointwiseEq]
  | cons v vs ih =>
    cases secret with
    | nil => simp [pointwiseEq]
    | cons e es =>
      have h := ih es
      simp only [Bool.and_eq_true, beq_iff_eq] at h
      simp only [List.length_cons, List.map_cons, pointwiseEq,
        Bool.and_eq_true, beq_iff_eq, Nat.add_right_cancel_iff,
        jsStrictEqNum_iff, List.cons.injEq]
      constructor
      · rintro ⟨hlen, hv, hp⟩
        exact ⟨hv, h.mp ⟨hlen, hp⟩⟩
      · rintro ⟨hv, hvs⟩
        obtain ⟨hlen, hp⟩ := h.mpr hvs
        exact ⟨hlen, hv, hp⟩

theorem isCorrectSeq_iff (seq : List JsVal) (secret : List Int) :
    isCorrectSeq seq secret = true ↔ seq = secret.map JsVal.jnum := by
  rw [isCorrectSeq, show seq.enum = List.enumFrom 0 seq from rfl,
    enumFrom_all_eq_pointwise seq secret 0, List.drop_zero]
  exact pointwise_length_iff seq secret

theorem map_jnum_inj (s t : List Int)
    (h : s.map JsVal.jnum = t.map JsVal.jnum) : s = t := by
  induction s generalizing t with
  | nil => cases t <;> simp_all
  | cons a as ih =>
    cases t with
    | nil => simp_all
    | cons b bs =>
      simp only [List.map_cons, List.cons.injEq, JsVal.jnum.injEq] at h
      exact List.cons_eq_cons.mpr ⟨h.1, ih bs h.2⟩

theorem isCorrectSeq_map_iff (s secret : List Int) :
    isCorrectSeq (s.map JsVal.jnum) secret = true ↔ s = secret := by
  rw [isCorrectSeq_iff]
  constructor
  · exact fun h => map_jnum_inj s secret h
  · rintro rfl; rfl

theorem tokenFor_correct : tokenFor correctJsSeq = "user_2_6_4_8" := by
  decide

/-- Inversion of a successful login: the submitted body was exactly the
correct array, the token is the deterministic `user_2_6_4_8`, the caller's
counter was reset, other counters untouched, and the token was added to the
session set. -/
theorem login_success_inv (cfg : Config) (st : ServerState) (k : String)
    (body : Option JsVal) (tok : String) (st' : ServerState)
    (h : login cfg st k body = (.success tok, st')) :
    body = some (.jarr correctJsSeq) ∧ tok = "user_2_6_4_8" ∧
      st'.attempts k = 0 ∧ (∀ k', k' ≠ k → st'.attempts k' = st.attempts k') ∧
      st'.sessions = issue st.sessions "user_2_6_4_8" := by
  by_cases hthr : cfg.maxImageLoginAttempts ≤ st.attempts k
  · simp [login, if_pos hthr] at h
  · cases body with
    | none => simp [login, if_neg hthr] at h
    | some v =>
      cases v with
      | jarr seq =>
        simp only [login, if_neg hthr, truthy, isArray, Bool.not_true,
          Bool.or_self, Bool.false_eq_true, if_false] at h
        by_cases hseq : isCorrectSeq seq CORRECT_IMAGE_SEQUENCE = true
        · rw [if_pos hseq] at h
          have h3 := (isCorrectSeq_iff seq CORRECT_IMAGE_SEQUENCE).mp hseq
          have hval : seq = correctJsSeq := by rw [h3]; rfl
          subst hval
          rw [Prod.mk.injEq] at h
          obtain ⟨h1, h2⟩ := h
          rw [LoginResult.success.injEq] at h1
          have htok : tok = "user_2_6_4_8" := by
            rw [← h1, tokenFor_correct]
          refine ⟨rfl, htok, ?_, ?_, ?_⟩
          · rw [← h2]; simp
          · intro k' hk'; rw [← h2]; simp [hk']
          · rw [← h2]; simp [tokenFor_correct]
        · rw [if_neg hseq] at h
          simp at h
      | jnum n => simp [login, if_neg hthr, isArray] at h
      | jstr s => simp [login, if_neg hthr, isArray] at h
      | jbool b => simp [login, if_neg hthr, isArray] at h
      | jnull => simp [login, if_neg hthr, isArray] at h

theorem isCorrectSeq_correct :
    isCorrectSeq correctJsSeq CORRECT_IMAGE_SEQUENCE = true := by decide

/-- A non-throttled login with the correct array succeeds, resets the
caller's counter and records the deterministic token. -/
theorem login_correct_succeeds (cfg : Config) (st : ServerState) (k : String)
    (h : st.attempts k < cfg.maxImageLoginAttempts) :
    login cfg st k (some (.jarr correctJsSeq)) =
      (.success "user_2_6_4_8",
        { attempts := fun k' => if k' = k then 0 else st.attempts k',
          sessions := issue st.sessions "user_2_6_4_8" }) := by
  simp [login, Nat.not_le.mpr h, truthy, isArray, isCorrectSeq_correct,
    tokenFor_correct]

/-- A non-throttled login with a wrong array is a 401 that increments the
caller's counter and leaves everything else unchanged. -/
theorem login_wrong (cfg : Config) (st : ServerState) (k : String)
    (seq : List JsVal) (h : st.attempts k < cfg.maxImageLoginAttempts)
    (hseq : isCorrectSeq seq CORRECT_IMAGE_SEQUENCE = false) :
    login cfg st k (some (.jarr seq)) =
      (.incorrectSequence,
        { st with attempts := fun k' =>
            if k' = k then st.attempts k' + 1 else st.attempts k' }) := by
  simp [login, Nat.not_le.mpr h, truthy, isArray, hseq]

/-- A login from a key whose counter has reached the ceiling is rejected
with the throttle error and touches nothing, whatever the body. -/
theorem login_throttled (cfg : Config) (st : ServerState) (k : String)
    (body : Option JsVal) (h : cfg.maxImageLoginAttempts ≤ st.attempts k) :
    login cfg st k body = (.tooManyAttempts, st) := by
  simp [login, h]

/-- A non-throttled login whose `imageSequence` is not an array is a 400
that leaves the state unchanged. -/
theorem login_nonarray (cfg : Config) (st : ServerState) (k : String)
    (v : JsVal) (h : st.attempts k < cfg.maxImageLoginAttempts)
    (hv : isArray v = false) :
    login cfg st k (some v) = (.invalidBody, st) := by
  cases v with
  | jarr s => simp [isArray] at hv
  | jnum n => simp [login, Nat.not_le.mpr h, isArray]
  | jstr s => simp [login, Nat.not_le.mpr h, isArray]
  | jbool b => simp [login, Nat.not_le.mpr h, isArray]
  | jnull => simp [login, Nat.not_le.mpr h, isArray]

/-- A non-throttled login with a missing `imageSequence` field is a 400
that leaves the state unchanged. -/
theorem login_missing (cfg : Config) (st : ServerState) (k : String)
    (h : st.attempts k < cfg.maxImageLoginAttempts) :
    login cfg st k none = (.invalidBody, st) := by
  simp [login, Nat.not_le.mpr h]

/-! ### Claims -/

/-- C1: for every submitted list of numbers `s` (from a state whose counter
is below the ceiling, so the request reaches the verifier), login returns a
token iff `s` equals the configured secret sequence element-wise in order;
every other list — permutation, proper prefix, superset — is rejected with
the 401 incorrect-sequence error. -/
theorem C1_login_iff_exact_sequence (cfg : Config) (st : ServerState)
    (k : String) (s : List Int)
    (h : st.attempts k < cfg.maxImageLoginAttempts) :
    ((∃ tok, (login cfg st k (some (.jarr (s.map .jnum)))).1 =
        .success tok) ↔ s = CORRECT_IMAGE_SEQUENCE) ∧
      (s ≠ CORRECT_IMAGE_SEQUENCE →
        (login cfg st k (some (.jarr (s.map .jnum)))).1 =
          .incorrectSequence) := by
  by_cases hs : s = CORRECT_IMAGE_SEQUENCE
  · subst hs
    rw [show (CORRECT_IMAGE_SEQUENCE.map JsVal.jnum) = correctJsSeq from rfl,
      login_correct_succeeds cfg st k h]
    exact ⟨⟨fun _ => rfl, fun _ => ⟨"user_2_6_4_8", rfl⟩⟩,
      fun hne => absurd rfl hne⟩
  · have hseq :
        isCorrectSeq (s.map JsVal.jnum) CORRECT_IMAGE_SEQUENCE = false := by
      rw [Bool.eq_false_iff]
      intro hc
      exact hs ((isCorrectSeq_map_iff s CORRECT_IMAGE_SEQUENCE).mp hc)
    rw [login_wrong cfg st k (s.map .jnum) h hseq]
    refine ⟨⟨?_, fun he => absurd he hs⟩, fun _ => rfl⟩
    rintro ⟨tok, htok⟩
    simp at htok

/-- Witness for C1 at the concrete correct input `[2, 6, 4, 8]` on a fresh
state. -/
theorem C1_login_iff_exact_sequence_witness :
    ((∃ tok, (login defaultConfig initialState "203.0.113.7"
        (some (.jarr (([2, 6, 4, 8] : List Int).map .jnum)))).1 =
          .success tok) ↔ ([2, 6, 4, 8] : List Int) = CORRECT_IMAGE_SEQUENCE) ∧
      (([2, 6, 4, 8] : List Int) ≠ CORRECT_IMAGE_SEQUENCE →
        (login defaultConfig initialState "203.0.113.7"
          (some (.jarr (([2, 6, 4, 8] : List Int).map .jnum)))).1 =
            .incorrectSequence) :=
  C1_login_iff_exact_sequence defaultConfig initialState "203.0.113.7"
    [2, 6, 4, 8] (by decide)

/-- C2: once the counter for an origin has reached the ceiling, the next
login from that origin is rejected with the 429 throttle error with the
state untouched, whatever the submitted body — the sequence is never
compared; and a successful verification below the ceiling resets that
origin's counter to zero. -/
theorem C2_throttle_and_reset (cfg : Config) (st : ServerState)
    (k : String) :
    (cfg.maxImageLoginAttempts ≤ st.attempts k →
      ∀ body : Option JsVal, login cfg st k body = (.tooManyAttempts, st)) ∧
      (∀ (body : Option JsVal) (tok : String) (st' : ServerState),
        st.attempts k < cfg.maxImageLoginAttempts →
        login cfg st k body = (.success tok, st') → st'.attempts k = 0) := by
  constructor
  · intro hceil body
    exact login_throttled cfg st k body hceil
  · intro body tok st' _ hsucc
    exact (login_success_inv cfg st k body tok st' hsucc).2.2.1

/-- Witness for C2: a saturated counter throttles the correct sequence, and
a fresh successful login ends with counter zero. -/
theorem C2_throttle_and_reset_witness :
    login defaultConfig throttledState "203.0.113.7"
        (some (.jarr correctJsSeq)) = (.tooManyAttempts, throttledState) ∧
      (login defaultConfig initialState "203.0.113.7"
        (some (.jarr correctJsSeq))).2.attempts "203.0.113.7" = 0 :=
  ⟨(C2_throttle_and_reset defaultConfig throttledState "203.0.113.7").1
      (by decide) (some (.jarr correctJsSeq)),
    (C2_throttle_and_reset defaultConfig initialState "203.0.113.7").2
      (some (.jarr correctJsSeq)) "user_2_6_4_8"
      (login defaultConfig initialState "203.0.113.7"
        (some (.jarr correctJsSeq))).2
      (by decide) (by rfl)⟩

/-- C3: validating an issued token returns its identity (the token string
itself, which is the identity the middleware attaches); validating a token
absent from the store returns none; validating after revocation returns
none. The revoke operation is modelled from the spec, src having no logout
endpoint. -/
theorem C3_session_store (s : List String) (t : String) :
    validate (issue s t) t = some t ∧
      (t ∉ s → validate s t = none) ∧
      validate (revoke s t) t = none := by
  refine ⟨?_, ?_, ?_⟩
  · by_cases hmem : t ∈ s <;> simp [issue, validate, hmem]
  · intro hnot
    simp [validate, hnot]
  · have hno : t ∉ revoke s t := by
      intro hmem
      have hp := List.mem_filter.mp hmem
      simp at hp
    simp [validate, hno]

/-- Witness for C3 on a concrete store. -/
theorem C3_session_store_witness :
    validate (issue ["user_9"] "user_2_6_4_8") "user_2_6_4_8" =
        some "user_2_6_4_8" ∧
      validate ["user_9"] "user_2_6_4_8" = none ∧
      validate (revoke ["user_9"] "user_2_6_4_8") "user_2_6_4_8" = none :=
  ⟨(C3_session_store ["user_9"] "user_2_6_4_8").1,
    (C3_session_store ["user_9"] "user_2_6_4_8").2.1 (by decide),
    (C3_session_store ["user_9"] "user_2_6_4_8").2.2⟩

/-- C4 counterexample: the token issued by a correct login is rejected with
403 by a freshly started process (empty `authenticatedUsers`), so a client
that retained its token across a restart is NOT still authenticated. -/
theorem C4_counterexample_restart :
    (login defaultConfig initialState "203.0.113.7"
        (some (.jarr correctJsSeq))).1 = .success "user_2_6_4_8" ∧
      authenticateToken initialState.sessions (some "user_2_6_4_8") none =
        .invalidToken := by
  exact ⟨by decide, by decide⟩

/-- C4 (amended): a token derived from a correct login is rejected as
invalid (403) by a freshly started server process; it authenticates again
only once a successful login — which, tokens being deterministic, the same
sequence reproduces verbatim — has occurred in the current process and
re-added it to the session store. -/
theorem C4_amended_restart (k tok : String) (st' : ServerState)
    (body : Option JsVal)
    (h : login defaultConfig initialState k body = (.success tok, st')) :
    authenticateToken initialState.sessions (some tok) none =
        .invalidToken ∧
      authenticateToken st'.sessions (some tok) none = .ok tok := by
  obtain ⟨hbody, htok, hatt, hother, hsess⟩ :=
    login_success_inv defaultConfig initialState k body tok st' h
  subst htok
  constructor
  · decide
  · rw [hsess]
    decide

/-- Witness for C4 (amended) with the concrete correct login. -/
theorem C4_amended_restart_witness :
    authenticateToken initialState.sessions (some "user_2_6_4_8") none =
        .invalidToken ∧
      authenticateToken (login defaultConfig initialState "203.0.113.7"
          (some (.jarr correctJsSeq))).2.sessions
        (some "user_2_6_4_8") none = .ok "user_2_6_4_8" :=
  C4_amended_restart "203.0.113.7" "user_2_6_4_8"
    (login defaultConfig initialState "203.0.113.7"
      (some (.jarr correctJsSeq))).2
    (some (.jarr correctJsSeq)) (by rfl)

/-- C5 counterexample: with ceiling 5 and secret `[2,6,4,8]`, after four
failed calls with `[1,2,3,4]` the counter is 4, and the fifth call with the
correct sequence returns 200 with a token — not the 429 the claim
predicts. -/
theorem C5_counterexample_fifth_call :
    (afterFailures 4).attempts "203.0.113.7" = 4 ∧
      statusCode (login defaultConfig (afterFailures 4) "203.0.113.7"
        (some (.jarr correctJsSeq))).1 = 200 ∧
      (login defaultConfig (afterFailures 4) "203.0.113.7"
        (some (.jarr correctJsSeq))).1 ≠ .tooManyAttempts := by
  exact ⟨by decide, by decide, by decide⟩

/-- C5 (amended): five calls with `[1,2,3,4]` each return 401 and bring the
counter to 5; a sixth call with any body returns 429 regardless of
correctness; from a reset state, `[2,6,4,8]` returns 200 with the token
`user_2_6_4_8`, and a repeat call returns the identical token string. -/
theorem C5_amended_scenario :
    ((List.range 5).all fun n =>
        statusCode (login defaultConfig (afterFailures n) "203.0.113.7"
          (some (.jarr wrongJsSeq))).1 == 401) = true ∧
      (afterFailures 5).attempts "203.0.113.7" = 5 ∧
      (∀ body : Option JsVal,
        statusCode (login defaultConfig (afterFailures 5) "203.0.113.7"
          body).1 = 429) ∧
      (login defaultConfig initialState "203.0.113.7"
        (some (.jarr correctJsSeq))).1 = .success "user_2_6_4_8" ∧
      (login defaultConfig
        (login defaultConfig initialState "203.0.113.7"
          (some (.jarr correctJsSeq))).2 "203.0.113.7"
        (some (.jarr correctJsSeq))).1 = .success "user_2_6_4_8" := by
  refine ⟨by decide, by decide, ?_, by decide, by decide⟩
  intro body
  have h5 : defaultConfig.maxImageLoginAttempts ≤
      (afterFailures 5).attempts "203.0.113.7" := by decide
  rw [login_throttled defaultConfig (afterFailures 5) "203.0.113.7" body h5]
  rfl

/-- C6: any two successful logins submitting the identical sequence — from
any two states, origins and configurations — yield the identical token
string: token issuance is a deterministic function of the accepted secret. -/
theorem C6_deterministic_token (cfgA cfgB : Config) (stA stB : ServerState)
    (kA kB : String) (body : Option JsVal) (tokA tokB : String)
    (stA' stB' : ServerState)
    (hA : login cfgA stA kA body = (.success tokA, stA'))
    (hB : login cfgB stB kB body = (.success tokB, stB')) :
    tokA = tokB := by
  rw [(login_success_inv cfgA stA kA body tokA stA' hA).2.1,
    (login_success_inv cfgB stB kB body tokB stB' hB).2.1]

/-- Witness for C6: two independent correct logins from unrelated states
both mint `user_2_6_4_8`. -/
theorem C6_deterministic_token_witness :
    ("user_2_6_4_8" : String) = "user_2_6_4_8" :=
  C6_deterministic_token defaultConfig defaultConfig initialState altState
    "203.0.113.7" "198.51.100.9" (some (.jarr correctJsSeq))
    "user_2_6_4_8" "user_2_6_4_8"
    (login defaultConfig initialState "203.0.113.7"
      (some (.jarr correctJsSeq))).2
    (login defaultConfig altState "198.51.100.9"
      (some (.jarr correctJsSeq))).2
    (by rfl) (by rfl)

/-- C7: uploading content under a filename then downloading that filename
returns the identical content; a second upload under the same name silently
overwrites the first, and a subsequent download returns only the newer
content — last write wins, uploads never fail on collision. -/
theorem C7_upload_download (dir : FileStore) (name : String)
    (c1 c2 : List Nat) :
    downloadFile (uploadFile dir name c1) name = some c1 ∧
      downloadFile (uploadFile (uploadFile dir name c1) name c2) name =
        some c2 := by
  constructor <;> simp [uploadFile, downloadFile]

/-- C8: listing returns exactly the regular files of the shared directory
(directories excluded), and the client partition of
`{a.png, b.txt, c.JPG}` is image-set `{a.png, c.JPG}` (case-insensitive)
and other-set `{b.txt}`, with the image extensions as specified. -/
theorem C8_list_and_partition :
    listFiles [⟨"a.png", true⟩, ⟨"b.txt", true⟩, ⟨"c.JPG", true⟩,
        ⟨"subdir", false⟩] = ["a.png", "b.txt", "c.JPG"] ∧
      filteredFiles "image" ["a.png", "b.txt", "c.JPG"] =
        ["a.png", "c.JPG"] ∧
      filteredFiles "other" ["a.png", "b.txt", "c.JPG"] = ["b.txt"] ∧
      imageExtensions = [".jpg", ".jpeg", ".png", ".gif", ".svg", ".webp"] := by
  exact ⟨by decide, by decide, by decide, rfl⟩

/-- C9: below the ceiling, a login with a missing or non-array
`imageSequence` is rejected with 400 and the state — in particular the
origin's counter — is untouched; and across all bodies the counter moves
only by +1 on a 401 mismatch or to 0 on a 200 success. -/
theorem C9_bad_request_counter (cfg : Config) (st : ServerState)
    (k : String) (h : st.attempts k < cfg.maxImageLoginAttempts) :
    login cfg st k none = (.invalidBody, st) ∧
      (∀ v : JsVal, isArray v = false →
        login cfg st k (some v) = (.invalidBody, st)) ∧
      (∀ body : Option JsVal,
        ((login cfg st k body).1 = .invalidBody →
          (login cfg st k body).2.attempts k = st.attempts k) ∧
        ((login cfg st k body).1 = .incorrectSequence →
          (login cfg st k body).2.attempts k = st.attempts k + 1) ∧
        (∀ tok, (login cfg st k body).1 = .success tok →
          (login cfg st k body).2.attempts k = 0)) := by
  refine ⟨login_missing cfg st k h,
    fun v hv => login_nonarray cfg st k v h hv, ?_⟩
  intro body
  cases body with
  | none =>
    rw [login_missing cfg st k h]
    exact ⟨fun _ => rfl, fun hc => by simp at hc, fun tok hc => by simp at hc⟩
  | some v =>
    cases v with
    | jarr seq =>
      by_cases hseq : isCorrectSeq seq CORRECT_IMAGE_SEQUENCE = true
      · have hval : seq = correctJsSeq := by
          rw [(isCorrectSeq_iff seq CORRECT_IMAGE_SEQUENCE).mp hseq]
          rfl
        subst hval
        rw [login_correct_succeeds cfg st k h]
        exact ⟨fun hc => by simp at hc, fun hc => by simp at hc,
          fun tok _ => by simp⟩
      · rw [login_wrong cfg st k seq h (Bool.eq_false_iff.mpr hseq)]
        exact ⟨fun hc => by simp at hc, fun _ => by simp,
          fun tok hc => by simp at hc⟩
    | jnum n =>
      rw [login_nonarray cfg st k (.jnum n) h rfl]
      exact ⟨fun _ => rfl, fun hc => by simp at hc, fun tok hc => by simp at hc⟩
    | jstr s =>
      rw [login_nonarray cfg st k (.jstr s) h rfl]
      exact ⟨fun _ => rfl, fun hc => by simp at hc, fun tok hc => by simp at hc⟩
    | jbool b =>
      rw [login_nonarray cfg st k (.jbool b) h rfl]
      exact ⟨fun _ => rfl, fun hc => by simp at hc, fun tok hc => by simp at hc⟩
    | jnull =>
      rw [login_nonarray cfg st k .jnull h rfl]
      exact ⟨fun _ => rfl, fun hc => by simp at hc, fun tok hc => by simp at hc⟩

/-- Witness for C9: concrete 400s that leave a fresh state unchanged. -/
theorem C9_bad_request_counter_witness :
    login defaultConfig initialState "203.0.113.7" none =
        (.invalidBody, initialState) ∧
      login defaultConfig initialState "203.0.113.7" (some (.jstr "2648")) =
        (.invalidBody, initialState) :=
  ⟨(C9_bad_request_counter defaultConfig initialState "203.0.113.7"
      (by decide)).1,
    (C9_bad_request_counter defaultConfig initialState "203.0.113.7"
      (by decide)).2.1 (.jstr "2648") (by decide)⟩

/-- C10: on every protected route the gate reads the Authorization header
first and falls back to the `token` query parameter, so a (non-empty) token
presented through either carrier — with or without extra query noise — gets
the same authentication outcome. -/
theorem C10_token_carrier (r : Route) (sessions : List String) (t : String)
    (q : Option String) (h : t ≠ "") :
    routeGate r sessions (some t) q = routeGate r sessions none (some t) := by
  simp [routeGate, authenticateToken, h]

/-- Witness for C10 on the download route with a stored token. -/
theorem C10_token_carrier_witness :
    routeGate .download ["user_2_6_4_8"] (some "user_2_6_4_8") none =
      routeGate .download ["user_2_6_4_8"] none (some "user_2_6_4_8") :=
  C10_token_carrier .download ["user_2_6_4_8"] "user_2_6_4_8" none
    (by decide)

end Drop
